import Mathlib

/-!
Shallow embedding of the power-save (PS) negotiation state machine of
`src/ubuntu/rsi/rsi_91x_ps.c` (functions `str_psstate`, `rsi_modify_ps_state`,
`rsi_enable_ps`, `rsi_disable_ps`, `rsi_conf_uapsd`, `rsi_handle_ps_confirm`),
together with proofs of the spec claims about it.

Modelling decisions:
* `adapter->ps_state` is the only adapter field the state machine reads or
  writes, so the adapter is represented by a `ps_state` value and each C
  function becomes a pure function from the old state (plus inputs) to its
  results.
* The external collaborator `rsi_send_ps_request(adapter, enable)` (the
  Transport) is a parameter `send : Bool → Int`; a non-zero return is failure,
  exactly as the C code tests it with `if (rsi_send_ps_request(...))`.
* Each operation additionally returns the ordered list of Transport calls it
  made (the `enable` flag of each call) and an `Option PsError` naming which
  error path (ERR_ZONE log + early return in the C code) was taken, `none`
  meaning the non-error path.
* The confirmation message `u8 *msg` is a `List Nat` of bytes; the C read
  `*(u16 *)&msg[PS_CONFIRM_INDEX]` is a little-endian 16-bit read of the two
  bytes at that fixed offset.
-/

/-- The PS state enumeration `enum ps_state` (declared in a header outside
`src/`; its four variants are used verbatim by `rsi_91x_ps.c`). -/
inductive ps_state where
  | PS_NONE
  | PS_DISABLE_REQ_SENT
  | PS_ENABLE_REQ_SENT
  | PS_ENABLED
deriving DecidableEq, Repr

open ps_state

/-- `str_psstate`: the PS state in string format (`rsi_91x_ps.c:32`). The C
default branch is unreachable because the embedded enumeration is exactly the
four declared variants. -/
def str_psstate : ps_state → String
  | PS_NONE => "PS_NONE"
  | PS_DISABLE_REQ_SENT => "PS_DISABLE_REQ_SENT"
  | PS_ENABLE_REQ_SENT => "PS_ENABLE_REQ_SENT"
  | PS_ENABLED => "PS_ENABLED"

/-- `rsi_modify_ps_state` (`rsi_91x_ps.c:57`): logs the transition and stores
the new state. The log is a side effect outside the functional contract, so
the embedding returns the stored value. -/
def rsi_modify_ps_state (nstate : ps_state) : ps_state :=
  nstate

/-- Error outcomes of the operations, one per ERR_ZONE log + early-return path
of the C code. -/
inductive PsError where
  | InvalidStateTransition (current : ps_state)
  | TransportError (code : Int)
  | UnrecognizedConfirmation (raw : Nat) (current : ps_state)
deriving DecidableEq, Repr

/-- Result of `rsi_enable_ps` / `rsi_disable_ps` / `rsi_conf_uapsd`: the new
stored state, the error path taken (if any), and the ordered Transport calls
made (each recorded as its `enable` flag). -/
structure PsResult where
  ps_state : ps_state
  err : Option PsError
  sends : List Bool
deriving DecidableEq, Repr

/-- `rsi_enable_ps` (`rsi_91x_ps.c:100`). -/
def rsi_enable_ps (send : Bool → Int) (st : ps_state) : PsResult :=
  if st ≠ PS_NONE then
    ⟨st, some (PsError.InvalidStateTransition st), []⟩
  else if send true ≠ 0 then
    ⟨st, some (PsError.TransportError (send true)), [true]⟩
  else
    ⟨rsi_modify_ps_state PS_ENABLE_REQ_SENT, none, [true]⟩

/-- `rsi_disable_ps` (`rsi_91x_ps.c:126`). -/
def rsi_disable_ps (send : Bool → Int) (st : ps_state) : PsResult :=
  if st ≠ PS_ENABLED then
    ⟨st, some (PsError.InvalidStateTransition st), []⟩
  else if send false ≠ 0 then
    ⟨st, some (PsError.TransportError (send false)), [false]⟩
  else
    ⟨rsi_modify_ps_state PS_DISABLE_REQ_SENT, none, [false]⟩

/-- `rsi_conf_uapsd` (`rsi_91x_ps.c:152`): silently returns unless the state
is `PS_ENABLED`; otherwise sends disable then enable, aborting after a failed
first send; never modifies the stored state. -/
def rsi_conf_uapsd (send : Bool → Int) (st : ps_state) : PsResult :=
  if st ≠ PS_ENABLED then
    ⟨st, none, []⟩
  else if send false ≠ 0 then
    ⟨st, some (PsError.TransportError (send false)), [false]⟩
  else if send true ≠ 0 then
    ⟨st, some (PsError.TransportError (send true)), [false, true]⟩
  else
    ⟨st, none, [false, true]⟩

/-- Modelled from the spec: `PS_CONFIRM_INDEX`, the fixed byte offset of the
16-bit confirmation-type field, is defined in a header (`rsi_mgmt.h`) that is
not under `src/`; the spec treats it as a configuration constant, so a
concrete representative value is used. No claim depends on the numeric value,
only on the offset being fixed. -/
def PS_CONFIRM_INDEX : Nat := 12

/-- Modelled from the spec: `SLEEP_REQUEST`, the confirmation-type value
meaning the sleep (enable) request was confirmed, is defined in a header not
under `src/`; a concrete representative value is used. No claim depends on
the numeric value, only on it being distinct from `WAKEUP_REQUEST`. -/
def SLEEP_REQUEST : Nat := 2

/-- Modelled from the spec: `WAKEUP_REQUEST`, the confirmation-type value
meaning the wakeup (disable) request was confirmed, is defined in a header not
under `src/`; a concrete representative value distinct from `SLEEP_REQUEST`
is used. -/
def WAKEUP_REQUEST : Nat := 3

/-- The C read `*(u16 *)&msg[PS_CONFIRM_INDEX]` (`rsi_91x_ps.c:183`): a
little-endian 16-bit value assembled from the two message bytes at the fixed
offset. Bytes are reduced mod 256 (they are `u8` in C) and a missing byte
reads as 0. -/
def get_confirm_type (msg : List Nat) : Nat :=
  msg.getD PS_CONFIRM_INDEX 0 % 256 + 256 * (msg.getD (PS_CONFIRM_INDEX + 1) 0 % 256)

/-- Result of `rsi_handle_ps_confirm`: the new stored state, the C return
value (`0` on success, `-1` on an unrecognized confirmation type), and the
error path taken (if any). -/
structure ConfirmResult where
  ps_state : ps_state
  ret : Int
  err : Option PsError
deriving DecidableEq, Repr

/-- `rsi_handle_ps_confirm` (`rsi_91x_ps.c:179`). -/
def rsi_handle_ps_confirm (st : ps_state) (msg : List Nat) : ConfirmResult :=
  let cfm_type := get_confirm_type msg
  if cfm_type = SLEEP_REQUEST then
    if st = PS_ENABLE_REQ_SENT then
      ⟨rsi_modify_ps_state PS_ENABLED, 0, none⟩
    else
      ⟨st, 0, none⟩
  else if cfm_type = WAKEUP_REQUEST then
    if st = PS_DISABLE_REQ_SENT then
      ⟨rsi_modify_ps_state PS_NONE, 0, none⟩
    else
      ⟨st, 0, none⟩
  else
    ⟨st, -1, some (PsError.UnrecognizedConfirmation cfm_type st)⟩

/-- A state is one of the four declared `ps_state` variants. -/
def valid_state (s : ps_state) : Prop :=
  s = PS_NONE ∨ s = PS_ENABLE_REQ_SENT ∨ s = PS_ENABLED ∨ s = PS_DISABLE_REQ_SENT

lemma valid_state_all (s : ps_state) : valid_state s := by
  cases s <;> simp [valid_state]

/-- C1: `rsi_handle_ps_confirm` follows the transition table: in
`PS_ENABLE_REQ_SENT` a `SLEEP_REQUEST` confirmation moves to `PS_ENABLED`; in
`PS_DISABLE_REQ_SENT` a `WAKEUP_REQUEST` confirmation moves to `PS_NONE`; a
recognized confirmation that does not match the pending state leaves the
state unchanged and still returns success (0, no error). -/
theorem confirm_transition_table (st : ps_state) (msg : List Nat) :
    (get_confirm_type msg = SLEEP_REQUEST → st = PS_ENABLE_REQ_SENT →
      rsi_handle_ps_confirm st msg = ⟨PS_ENABLED, 0, none⟩) ∧
    (get_confirm_type msg = WAKEUP_REQUEST → st = PS_DISABLE_REQ_SENT →
      rsi_handle_ps_confirm st msg = ⟨PS_NONE, 0, none⟩) ∧
    (get_confirm_type msg = SLEEP_REQUEST → st ≠ PS_ENABLE_REQ_SENT →
      rsi_handle_ps_confirm st msg = ⟨st, 0, none⟩) ∧
    (get_confirm_type msg = WAKEUP_REQUEST → st ≠ PS_DISABLE_REQ_SENT →
      rsi_handle_ps_confirm st msg = ⟨st, 0, none⟩) := by
  refine ⟨?_, ?_, ?_, ?_⟩ <;> intro h1 h2 <;>
    simp [rsi_handle_ps_confirm, rsi_modify_ps_state, h1, h2,
      SLEEP_REQUEST, WAKEUP_REQUEST]

/-- Witness for C1: a message whose confirm-type bytes decode to
`SLEEP_REQUEST`, received in `PS_ENABLE_REQ_SENT`, yields `PS_ENABLED` with
success, and the same message in `PS_ENABLED` is ignored with success. -/
theorem confirm_transition_table_witness :
    rsi_handle_ps_confirm PS_ENABLE_REQ_SENT
        [0, 0, 0, 0, 0, 0, 0, 0, 0, 0, 0, 0, 2, 0] = ⟨PS_ENABLED, 0, none⟩ ∧
    rsi_handle_ps_confirm PS_ENABLED
        [0, 0, 0, 0, 0, 0, 0, 0, 0, 0, 0, 0, 3, 0] = ⟨PS_ENABLED, 0, none⟩ :=
  ⟨(confirm_transition_table PS_ENABLE_REQ_SENT _).1 (by decide) rfl,
   (confirm_transition_table PS_ENABLED _).2.2.2 (by decide) (by decide)⟩

/-- C2: `rsi_enable_ps` succeeds only from `PS_NONE`: from any other state it
fails with `InvalidStateTransition` reporting the current state, changes
nothing and makes no Transport call; from `PS_NONE` with a successful send it
transitions to `PS_ENABLE_REQ_SENT`. -/
theorem enable_ps_guard (send : Bool → Int) (st : ps_state) :
    (st ≠ PS_NONE →
      rsi_enable_ps send st = ⟨st, some (PsError.InvalidStateTransition st), []⟩) ∧
    (st = PS_NONE → send true = 0 →
      rsi_enable_ps send st = ⟨PS_ENABLE_REQ_SENT, none, [true]⟩) := by
  constructor
  · intro h
    simp [rsi_enable_ps, h]
  · intro h hs
    simp [rsi_enable_ps, rsi_modify_ps_state, h, hs]

/-- Witness for C2: from `PS_ENABLED` the call is rejected with no Transport
call; from `PS_NONE` with a succeeding Transport it reaches
`PS_ENABLE_REQ_SENT`. -/
theorem enable_ps_guard_witness :
    rsi_enable_ps (fun _ => 0) PS_ENABLED =
      ⟨PS_ENABLED, some (PsError.InvalidStateTransition PS_ENABLED), []⟩ ∧
    rsi_enable_ps (fun _ => 0) PS_NONE = ⟨PS_ENABLE_REQ_SENT, none, [true]⟩ :=
  ⟨(enable_ps_guard (fun _ => 0) PS_ENABLED).1 (by decide),
   (enable_ps_guard (fun _ => 0) PS_NONE).2 rfl rfl⟩

/-- C3: `rsi_disable_ps` succeeds only from `PS_ENABLED`: from any other
state it fails with `InvalidStateTransition`, changes nothing and makes no
Transport call; from `PS_ENABLED` with a successful send of `enable=false` it
transitions to `PS_DISABLE_REQ_SENT`. -/
theorem disable_ps_guard (send : Bool → Int) (st : ps_state) :
    (st ≠ PS_ENABLED →
      rsi_disable_ps send st = ⟨st, some (PsError.InvalidStateTransition st), []⟩) ∧
    (st = PS_ENABLED → send false = 0 →
      rsi_disable_ps send st = ⟨PS_DISABLE_REQ_SENT, none, [false]⟩) := by
  constructor
  · intro h
    simp [rsi_disable_ps, h]
  · intro h hs
    simp [rsi_disable_ps, rsi_modify_ps_state, h, hs]

/-- Witness for C3: from `PS_NONE` the call is rejected with no Transport
call; from `PS_ENABLED` with a succeeding Transport it reaches
`PS_DISABLE_REQ_SENT`. -/
theorem disable_ps_guard_witness :
    rsi_disable_ps (fun _ => 0) PS_NONE =
      ⟨PS_NONE, some (PsError.InvalidStateTransition PS_NONE), []⟩ ∧
    rsi_disable_ps (fun _ => 0) PS_ENABLED = ⟨PS_DISABLE_REQ_SENT, none, [false]⟩ :=
  ⟨(disable_ps_guard (fun _ => 0) PS_NONE).1 (by decide),
   (disable_ps_guard (fun _ => 0) PS_ENABLED).2 rfl rfl⟩

/-- C4: for any state and any message whose confirmation type is neither
`SLEEP_REQUEST` nor `WAKEUP_REQUEST`, `rsi_handle_ps_confirm` returns the
error result `-1`, reports `UnrecognizedConfirmation`, and leaves the state
unchanged. -/
theorem confirm_unrecognized (st : ps_state) (msg : List Nat)
    (h1 : get_confirm_type msg ≠ SLEEP_REQUEST)
    (h2 : get_confirm_type msg ≠ WAKEUP_REQUEST) :
    rsi_handle_ps_confirm st msg =
      ⟨st, -1, some (PsError.UnrecognizedConfirmation (get_confirm_type msg) st)⟩ := by
  simp [rsi_handle_ps_confirm, h1, h2]

/-- Witness for C4: a message whose confirm-type bytes decode to `0xFFFF`
(65535) is rejected from `PS_ENABLED` with return `-1` and state unchanged. -/
theorem confirm_unrecognized_witness :
    rsi_handle_ps_confirm PS_ENABLED
        [0, 0, 0, 0, 0, 0, 0, 0, 0, 0, 0, 0, 255, 255] =
      ⟨PS_ENABLED, -1, some (PsError.UnrecognizedConfirmation 65535 PS_ENABLED)⟩ :=
  confirm_unrecognized PS_ENABLED _ (by decide) (by decide)

/-- C5: if the Transport send fails while the precondition holds, `rsi_enable_ps`
and `rsi_disable_ps` report the Transport error verbatim and leave the state
exactly as it was (no optimistic transition to the request-sent state). -/
theorem send_failure_no_transition (send : Bool → Int) :
    (send true ≠ 0 →
      rsi_enable_ps send PS_NONE =
        ⟨PS_NONE, some (PsError.TransportError (send true)), [true]⟩) ∧
    (send false ≠ 0 →
      rsi_disable_ps send PS_ENABLED =
        ⟨PS_ENABLED, some (PsError.TransportError (send false)), [false]⟩) := by
  constructor
  · intro h
    simp [rsi_enable_ps, h]
  · intro h
    simp [rsi_disable_ps, h]

/-- Witness for C5: with a Transport that always fails with code 1, both
operations keep their state and report the error. -/
theorem send_failure_no_transition_witness :
    rsi_enable_ps (fun _ => 1) PS_NONE =
      ⟨PS_NONE, some (PsError.TransportError 1), [true]⟩ ∧
    rsi_disable_ps (fun _ => 1) PS_ENABLED =
      ⟨PS_ENABLED, some (PsError.TransportError 1), [false]⟩ :=
  ⟨(send_failure_no_transition (fun _ => 1)).1 (by decide),
   (send_failure_no_transition (fun _ => 1)).2 (by decide)⟩

/-- C6: from `PS_ENABLED`, `rsi_conf_uapsd` issues exactly two Transport sends
in order, `enable=false` then `enable=true`, except that a failed first send
aborts before the second; in every case the stored state stays `PS_ENABLED`. -/
theorem conf_uapsd_sends (send : Bool → Int) :
    (rsi_conf_uapsd send PS_ENABLED).ps_state = PS_ENABLED ∧
    (send false = 0 → (rsi_conf_uapsd send PS_ENABLED).sends = [false, true]) ∧
    (send false ≠ 0 →
      rsi_conf_uapsd send PS_ENABLED =
        ⟨PS_ENABLED, some (PsError.TransportError (send false)), [false]⟩) := by
  refine ⟨?_, ?_, ?_⟩
  · by_cases h1 : send false = 0
    · by_cases h2 : send true = 0 <;> simp [rsi_conf_uapsd, h1, h2]
    · simp [rsi_conf_uapsd, h1]
  · intro h1
    by_cases h2 : send true = 0 <;> simp [rsi_conf_uapsd, h1, h2]
  · intro h1
    simp [rsi_conf_uapsd, h1]

/-- Witness for C6: with an always-succeeding Transport both sends go out in
order; with an always-failing Transport only the disable send goes out. -/
theorem conf_uapsd_sends_witness :
    (rsi_conf_uapsd (fun _ => 0) PS_ENABLED).sends = [false, true] ∧
    rsi_conf_uapsd (fun _ => 1) PS_ENABLED =
      ⟨PS_ENABLED, some (PsError.TransportError 1), [false]⟩ :=
  ⟨(conf_uapsd_sends (fun _ => 0)).2.1 rfl,
   (conf_uapsd_sends (fun _ => 1)).2.2 (by decide)⟩

/-- C7: from every state other than `PS_ENABLED`, `rsi_conf_uapsd` is a
silent no-op: no Transport calls, no error, state unchanged. -/
theorem conf_uapsd_noop (send : Bool → Int) (st : ps_state)
    (h : st ≠ PS_ENABLED) :
    rsi_conf_uapsd send st = ⟨st, none, []⟩ := by
  simp [rsi_conf_uapsd, h]

/-- Witness for C7: from `PS_NONE`, even with an always-failing Transport,
the call does nothing and reports nothing. -/
theorem conf_uapsd_noop_witness :
    rsi_conf_uapsd (fun _ => 1) PS_NONE = ⟨PS_NONE, none, []⟩ :=
  conf_uapsd_noop (fun _ => 1) PS_NONE (by decide)

/-- C8: from `PS_NONE`, with a Transport whose enable send succeeds, calling
`rsi_enable_ps` twice with no intervening confirmation leaves the first call
in `PS_ENABLE_REQ_SENT` and makes the second call fail with
`InvalidStateTransition` reporting `PS_ENABLE_REQ_SENT`, the state staying
`PS_ENABLE_REQ_SENT`. -/
theorem enable_ps_twice (send : Bool → Int) (h : send true = 0) :
    (rsi_enable_ps send PS_NONE).ps_state = PS_ENABLE_REQ_SENT ∧
    rsi_enable_ps send (rsi_enable_ps send PS_NONE).ps_state =
      ⟨PS_ENABLE_REQ_SENT,
       some (PsError.InvalidStateTransition PS_ENABLE_REQ_SENT), []⟩ := by
  have h1 : rsi_enable_ps send PS_NONE = ⟨PS_ENABLE_REQ_SENT, none, [true]⟩ := by
    simp [rsi_enable_ps, rsi_modify_ps_state, h]
  refine ⟨by rw [h1], ?_⟩
  rw [h1]
  simp [rsi_enable_ps]

/-- Witness for C8: the double-enable sequence with an always-succeeding
Transport. -/
theorem enable_ps_twice_witness :
    rsi_enable_ps (fun _ => 0)
        (rsi_enable_ps (fun _ => 0) PS_NONE).ps_state =
      ⟨PS_ENABLE_REQ_SENT,
       some (PsError.InvalidStateTransition PS_ENABLE_REQ_SENT), []⟩ :=
  (enable_ps_twice (fun _ => 0) rfl).2

/-- C9: every operation maps a `ps_state` to a `ps_state`: the state stored
after `rsi_enable_ps`, `rsi_disable_ps`, `rsi_conf_uapsd` or
`rsi_handle_ps_confirm`, whether it succeeded or failed, is always one of the
four declared variants. -/
theorem ops_preserve_valid_state (send : Bool → Int) (st : ps_state)
    (msg : List Nat) :
    valid_state (rsi_enable_ps send st).ps_state ∧
    valid_state (rsi_disable_ps send st).ps_state ∧
    valid_state (rsi_conf_uapsd send st).ps_state ∧
    valid_state (rsi_handle_ps_confirm st msg).ps_state :=
  ⟨valid_state_all _, valid_state_all _, valid_state_all _, valid_state_all _⟩

/-- C10: the result of `rsi_handle_ps_confirm` depends only on the current
state and the two message bytes at the fixed confirmation-type offset: two
messages agreeing on those bytes produce identical results from the same
state. -/
theorem confirm_depends_only_on_type_bytes (st : ps_state)
    (msg1 msg2 : List Nat)
    (h1 : msg1.getD PS_CONFIRM_INDEX 0 = msg2.getD PS_CONFIRM_INDEX 0)
    (h2 : msg1.getD (PS_CONFIRM_INDEX + 1) 0 = msg2.getD (PS_CONFIRM_INDEX + 1) 0) :
    rsi_handle_ps_confirm st msg1 = rsi_handle_ps_confirm st msg2 := by
  unfold rsi_handle_ps_confirm get_confirm_type
  rw [h1, h2]

/-- Witness for C10: two messages that differ everywhere except the two
confirmation-type bytes are handled identically. -/
theorem confirm_depends_only_on_type_bytes_witness :
    rsi_handle_ps_confirm PS_ENABLE_REQ_SENT
        [9, 9, 9, 9, 9, 9, 9, 9, 9, 9, 9, 9, 2, 0, 77] =
      rsi_handle_ps_confirm PS_ENABLE_REQ_SENT
        [0, 0, 0, 0, 0, 0, 0, 0, 0, 0, 0, 0, 2, 0] :=
  confirm_depends_only_on_type_bytes PS_ENABLE_REQ_SENT _ _ (by decide) (by decide)
